import Mathlib

/-!
Shallow embedding of the user-state core of `line_bot3.py` and `line_bot7.py`
(PhyoMK/MyNewLineService): the SQLite-backed user table (Store), the
process-wide in-memory `user_cache` (Cache), the helper functions
`load_cache_from_db`, `add_user`, `get_display_name`, `update_last_record_id`,
`get_last_record_id`, and the two event handlers `handle_message` and
`handle_postback`, together with the `/webhook` endpoint's signature-failure
behaviour.

Python dicts are modelled as association lists in insertion order; the SQLite
`users` table as a list of rows in insertion order.  External effects
(`send_to_powerapp`, `line_bot_api.reply_message`, `line_bot_api.get_profile`)
are made explicit: a handler returns its successor state together with the
list of forward calls it made and the reply it sent, and the profile the
platform would return is passed in as an argument.
-/

namespace LineService

/-- A row of the SQLite table `users (user_id TEXT PRIMARY KEY, display_name
TEXT, last_record_id INTEGER)`.  `last_record_id` is nullable. -/
structure UserRow where
  user_id : String
  display_name : String
  last_record_id : Option Int
deriving DecidableEq, Repr

/-- A value of the in-memory cache:
`user_cache[user_id] = {"display_name": str, "last_record_id": int or None}`. -/
structure CacheEntry where
  display_name : String
  last_record_id : Option Int
deriving DecidableEq, Repr

/-- The state the handlers read and mutate: the durable table and the
process-wide `user_cache` dict (modelled as an association list in
insertion order, keys unique in every reachable state). -/
structure BotState where
  store : List UserRow
  cache : List (String × CacheEntry)
deriving DecidableEq, Repr

/-- One call to `send_to_powerapp(user_id, display_name, feedback, record_id,
feedbacktxt, list_type)`: the six JSON fields of the outbound POST.
`displayName` is an Option because `handle_postback` forwards the result of
`get_display_name`, which is Python `None` for an unknown user, and
`recordId` is an Option because the text path forwards `get_last_record_id`,
which may be `None`. -/
structure ForwardCall where
  userId : String
  displayName : Option String
  feedback : Nat
  recordId : Option Int
  feedbacktxt : String
  list : String
deriving DecidableEq, Repr

/-- Result of one handler invocation: successor state, forward calls made
(in order), and the reply text sent through the platform, if any. -/
abbrev HandlerResult := BotState × List ForwardCall × Option String

/-- Python `str.lower` restricted to ASCII, which is all the handlers feed it. -/
def charLower (c : Char) : Char :=
  if 'A' ≤ c && c ≤ 'Z' then Char.ofNat (c.toNat + 32) else c

/-- Python `data.lower()` on ASCII strings. -/
def pyLower (s : String) : String :=
  (s.data.map charLower).asString

/-- Python substring test `pat in s` (for nonempty `pat`), on char lists. -/
def subOf : List Char → List Char → Bool
  | pat, [] => pat.isEmpty
  | pat, l@(_ :: t) => pat.isPrefixOf l || subOf pat t

/-- Python substring test `pat in s` for the string literals the handlers use. -/
def strContains (s pat : String) : Bool :=
  subOf pat.data s.data

/-- Python truthiness test `not display_name` on the result of
`get_display_name`: true for `None` and for the empty string. -/
def displayFalsy : Option String → Bool
  | none => true
  | some s => decide (s = "")

/-- Whitespace as matched by the regex class `\s` (ASCII cases). -/
def isPySpace (c : Char) : Bool :=
  c = ' ' || c = '\t' || c = '\n' || c = '\r' || c.toNat = 11 || c.toNat = 12

/-- Digit run to the integer Python's `int` would parse from it. -/
def digitsToNat (l : List Char) : Nat :=
  l.foldl (fun acc c => acc * 10 + (c.toNat - 48)) 0

/-- Continuation of `re.search(r':\s*(.+)', msg)` after a candidate colon:
greedy `\s*` with backtracking, then the greedy capture `(.+)` (one or more
characters other than a newline).  Returns the captured group. -/
def restCapture (rest : List Char) : Option (List Char) :=
  let ws := rest.takeWhile isPySpace
  let tail := rest.drop ws.length
  match tail with
  | _ :: _ => some (tail.takeWhile (fun c => c ≠ '\n'))
  | [] =>
    match ws.reverse.dropWhile (fun c => c = '\n') with
    | [] => none
    | c :: _ => some [c]

/-- Scan of `re.search(r':\s*(.+)', msg)`: try each colon left to right. -/
def colonCaptureAux : List Char → Option String
  | [] => none
  | c :: rest =>
    if c = ':' then
      match restCapture rest with
      | some cap => some cap.asString
      | none => colonCaptureAux rest
    else colonCaptureAux rest

/-- `re.search(r':\s*(.+)', msg)`, returning `match.group(1)`. -/
def colonCapture (msg : String) : Option String :=
  colonCaptureAux msg.data

/-- Tail of the postback regex after the matched alternation:
`:\s(\d+)\s+\( id :\s(\d+)` — a colon, one whitespace, the feedback digits,
one or more whitespace, the literal `( id :`, one whitespace, the record-id
digits.  Greedy matching needs no backtracking here because each repeated
class is disjoint from the literal that follows it. -/
def postTail (l : List Char) : Option (Nat × Nat) :=
  match l with
  | ':' :: c1 :: rest =>
    if isPySpace c1 then
      let d1 := rest.takeWhile Char.isDigit
      if d1.isEmpty then none else
      let r1 := rest.drop d1.length
      let ws := r1.takeWhile isPySpace
      if ws.isEmpty then none else
      match r1.drop ws.length with
      | '(' :: ' ' :: 'i' :: 'd' :: ' ' :: ':' :: c2 :: r3 =>
        if isPySpace c2 then
          let d2 := r3.takeWhile Char.isDigit
          if d2.isEmpty then none else some (digitsToNat d1, digitsToNat d2)
        else none
      | _ => none
    else none
  | _ => none

/-- `re.search(r'(feedback|action feedback):\s(\d+)\s+\( id :\s(\d+)', data)`:
scan left to right; at each position try the alternation (the two literals
start with different characters, so at most one can apply), then the tail.
Returns `(int(match.group(2)), int(match.group(3)))`. -/
def postbackSearch : List Char → Option (Nat × Nat)
  | [] => none
  | l@(_ :: rest) =>
    let attempt :=
      if ("feedback".data).isPrefixOf l then postTail (l.drop 8)
      else if ("action feedback".data).isPrefixOf l then postTail (l.drop 15)
      else none
    match attempt with
    | some x => some x
    | none => postbackSearch rest

/-- Lookup of the first row with the given `user_id` (the SQL row for the key;
unique in every reachable store). -/
def findRow (s : List UserRow) (u : String) : Option UserRow :=
  s.find? (fun row => row.user_id = u)

/-- SQL `WHERE user_id = ?` hit test. -/
def storeContains (s : List UserRow) (u : String) : Bool :=
  s.any (fun row => row.user_id = u)

/-- All rows with the given id (to state "exactly one row" properties). -/
def rowsFor (s : List UserRow) (u : String) : List UserRow :=
  s.filter (fun row => row.user_id = u)

/-- Python `user_cache.get(user_id, dict()).get(key)` entry lookup. -/
def cacheLookup (c : List (String × CacheEntry)) (u : String) : Option CacheEntry :=
  (c.find? (fun p => p.1 = u)).map (fun p => p.2)

/-- Python `user_id in user_cache`. -/
def cacheContains (c : List (String × CacheEntry)) (u : String) : Bool :=
  c.any (fun p => p.1 = u)

/-- Python dict assignment `user_cache[user_id] = e`: replace in place when
the key exists, append otherwise. -/
def cacheInsert (c : List (String × CacheEntry)) (u : String) (e : CacheEntry) :
    List (String × CacheEntry) :=
  if cacheContains c u then
    c.map (fun p => if p.1 = u then (u, e) else p)
  else c ++ [(u, e)]

/-- `load_cache_from_db` (line_bot3.py lines 43-51, line_bot7.py lines 34-42):
`user_cache = {r[0]: {"display_name": r[1], "last_record_id": r[2]} for r in rows}`
over `SELECT user_id, display_name, last_record_id FROM users`. -/
def load_cache_from_db (s : List UserRow) : List (String × CacheEntry) :=
  s.map (fun r => (r.user_id, ⟨r.display_name, r.last_record_id⟩))

/-- `add_user` (line_bot3.py lines 67-79, line_bot7.py lines 58-70): dict
assignment of a fresh entry with `last_record_id = None`, then
`INSERT OR IGNORE INTO users (user_id, display_name) VALUES (?, ?)` —
a new row (with NULL `last_record_id`) only when the id is absent. -/
def add_user (σ : BotState) (user_id display_name : String) : BotState :=
  { cache := cacheInsert σ.cache user_id ⟨display_name, none⟩,
    store :=
      if storeContains σ.store user_id then σ.store
      else σ.store ++ [⟨user_id, display_name, none⟩] }

/-- `get_display_name` (line_bot3.py lines 81-83):
`user_cache.get(user_id, dict()).get("display_name")`. -/
def get_display_name (σ : BotState) (user_id : String) : Option String :=
  (cacheLookup σ.cache user_id).map (fun e => e.display_name)

/-- `update_last_record_id` — the second, effective definition (line_bot3.py
lines 90-103; identical to line_bot7.py lines 77-90, and shadowing the
cache-only definition at line_bot3.py lines 85-88): guarded cache update
`if user_id in user_cache: user_cache[user_id]["last_record_id"] = record_id`,
then `UPDATE users SET last_record_id = ? WHERE user_id = ?`, which touches
only existing rows. -/
def update_last_record_id (σ : BotState) (user_id : String) (record_id : Int) :
    BotState :=
  { cache :=
      if cacheContains σ.cache user_id then
        σ.cache.map (fun p =>
          if p.1 = user_id then (p.1, { p.2 with last_record_id := some record_id }) else p)
      else σ.cache,
    store :=
      σ.store.map (fun row =>
        if row.user_id = user_id then { row with last_record_id := some record_id } else row) }

/-- `get_last_record_id` (line_bot3.py lines 105-106):
`user_cache.get(user_id, dict()).get("last_record_id")`. -/
def get_last_record_id (σ : BotState) (user_id : String) : Option Int :=
  (cacheLookup σ.cache user_id).bind (fun e => e.last_record_id)

/-- The `if not user_cache: load_cache_from_db()` step at the top of
`handle_message` (line_bot3.py lines 162-164, line_bot7.py lines 150-152). -/
def ensureFresh (σ : BotState) : BotState :=
  if σ.cache.isEmpty then { σ with cache := load_cache_from_db σ.store } else σ

/-- The feedback branch of `handle_message` for a matched literal
(line_bot3.py lines 189-203): `match = re.search(r':\s*(.+)', msg)`,
`record_id = get_last_record_id(user_id)`; on a match, one forward call with
feedback 0 and the captured text, then the thanks reply; otherwise return
with no action. -/
def messageFeedback (σ : BotState) (user_id display_name msg list_type : String) :
    HandlerResult :=
  match colonCapture msg with
  | some txt =>
    (σ, [⟨user_id, some display_name, 0, get_last_record_id σ user_id, txt, list_type⟩],
     some "Thanks for your feedback!")
  | none => (σ, [], none)

/-- `handle_message` of line_bot3.py (lines 157-203).  `profileName` is the
display name `line_bot_api.get_profile(user_id)` would return; it is consulted
only on the bootstrap path.  The `for prefix in [...]` loop is unrolled: the
first of the two literals found in the message wins and the loop returns. -/
def handle_message3 (profileName user_id msg : String) (σ0 : BotState) :
    HandlerResult :=
  let σ := ensureFresh σ0
  let dn := get_display_name σ user_id
  if displayFalsy dn then
    let σ1 := add_user σ user_id profileName
    (σ1, [⟨user_id, some profileName, 0, some 0, "", ""⟩], none)
  else
    let display_name := dn.getD ""
    if pyLower msg = "hello" then
      (σ, [], some ("Hello " ++ display_name ++ "!"))
    else if strContains msg "Service Feedback :" then
      messageFeedback σ user_id display_name msg "service"
    else if strContains msg "Action Feedback :" then
      messageFeedback σ user_id display_name msg "action"
    else (σ, [], none)

/-- `handle_message` of line_bot7.py (lines 145-180): the same reload check,
bootstrap, hello reply and feedback scan; within the feedback branch the reply
is sent before the forward call, which the result triple does not distinguish. -/
def handle_message7 (profileName user_id msg : String) (σ0 : BotState) :
    HandlerResult :=
  let σ := ensureFresh σ0
  let dn := get_display_name σ user_id
  if displayFalsy dn then
    let σ1 := add_user σ user_id profileName
    (σ1, [⟨user_id, some profileName, 0, some 0, "", ""⟩], none)
  else
    let display_name := dn.getD ""
    if pyLower msg = "hello" then
      (σ, [], some ("Hello " ++ display_name ++ "!"))
    else if strContains msg "Service Feedback :" then
      messageFeedback σ user_id display_name msg "service"
    else if strContains msg "Action Feedback :" then
      messageFeedback σ user_id display_name msg "action"
    else (σ, [], none)

/-- `handle_postback` of line_bot3.py (lines 205-225): no cache reload; the
payload is lower-cased, `list_type` chosen by a substring test, the regex
parsed; on a match the forward call (with the possibly-`None` display name),
the thanks reply, and `update_last_record_id`. -/
def handle_postback3 (user_id data : String) (σ : BotState) : HandlerResult :=
  let display_name := get_display_name σ user_id
  let d := pyLower data
  let list_type := if strContains d "service feedback:" then "service" else "action"
  match postbackSearch d.data with
  | some (f, r) =>
    let σ1 := update_last_record_id σ user_id (Int.ofNat r)
    (σ1, [⟨user_id, display_name, f, some (Int.ofNat r), "-", list_type⟩],
     some ("Thanks for your feedback: " ++ toString f ++ "/5!"))
  | none => (σ, [], none)

/-- `handle_postback` of line_bot7.py (lines 182-196): identical parsing; the
reply and `update_last_record_id` precede the forward call, whose arguments
were computed before the update, which the result triple does not distinguish. -/
def handle_postback7 (user_id data : String) (σ : BotState) : HandlerResult :=
  let display_name := get_display_name σ user_id
  let d := pyLower data
  let list_type := if strContains d "service feedback:" then "service" else "action"
  match postbackSearch d.data with
  | some (f, r) =>
    let σ1 := update_last_record_id σ user_id (Int.ofNat r)
    (σ1, [⟨user_id, display_name, f, some (Int.ofNat r), "-", list_type⟩],
     some ("Thanks for your feedback: " ++ toString f ++ "/5!"))
  | none => (σ, [], none)

/-- HTTP outcome of the `/webhook` route, as Flask reports it to the platform. -/
inductive HttpResult where
  | success (body : String)
  | clientError (code : Nat)
  | serverError
deriving DecidableEq, Repr

/-- The `/webhook` route of line_bot3.py (lines 143-150).  Signature
verification itself is the SDK's (`handler.handle` raises
`InvalidSignatureError` on a bad signature — the very exception line_bot7.py
imports and catches); `sigValid` abstracts its verdict.  line_bot3.py wraps
the call in no try/except, so on a bad signature the exception escapes the
route and Flask turns it into a 500 server error. -/
def webhook3 (sigValid : Bool) : HttpResult :=
  if sigValid then .success "OK" else .serverError

/-- The `/webhook` route of line_bot7.py (lines 130-138): the same dispatch,
but `InvalidSignatureError` is caught and answered with `abort(400)`. -/
def webhook7 (sigValid : Bool) : HttpResult :=
  if sigValid then .success "OK" else .clientError 400

/-! Helper lemmas about the association-list cache and the row list. -/

theorem cacheLookup_eq_none (c : List (String × CacheEntry)) (u : String)
    (h : cacheContains c u = false) : cacheLookup c u = none := by
  induction c with
  | nil => rfl
  | cons p t ih =>
    simp only [cacheContains, List.any_cons, Bool.or_eq_false_iff] at h
    simp only [cacheLookup, List.find?_cons, h.1, Option.map]
    exact ih h.2

theorem cacheContains_of_lookup (c : List (String × CacheEntry)) (u : String)
    (e : CacheEntry) (h : cacheLookup c u = some e) : cacheContains c u = true := by
  by_contra hc
  rw [cacheLookup_eq_none c u (by simpa using hc)] at h
  exact Option.noConfusion h

theorem cache_ne_nil_of_lookup (c : List (String × CacheEntry)) (u : String)
    (e : CacheEntry) (h : cacheLookup c u = some e) : c.isEmpty = false := by
  cases c with
  | nil => exact Option.noConfusion h
  | cons p t => rfl

theorem cacheLookup_load (s : List UserRow) (u : String)
    (h : storeContains s u = false) : cacheLookup (load_cache_from_db s) u = none := by
  induction s with
  | nil => rfl
  | cons row t ih =>
    simp only [storeContains, List.any_cons, Bool.or_eq_false_iff] at h
    simp only [load_cache_from_db, List.map_cons, cacheLookup, List.find?_cons, h.1]
    exact ih h.2

theorem cacheLookup_map_update (c : List (String × CacheEntry)) (u : String)
    (f : CacheEntry → CacheEntry) :
    cacheLookup (c.map (fun p => if p.1 = u then (p.1, f p.2) else p)) u
      = (cacheLookup c u).map f := by
  induction c with
  | nil => rfl
  | cons p t ih =>
    by_cases hp : p.1 = u
    · simp [cacheLookup, hp]
    · simp [cacheLookup, hp] at ih ⊢
      exact ih

theorem cacheLookup_map_replace (c : List (String × CacheEntry)) (u : String)
    (e : CacheEntry) (h : cacheContains c u = true) :
    cacheLookup (c.map (fun p => if p.1 = u then (u, e) else p)) u = some e := by
  induction c with
  | nil => exact absurd h (by simp [cacheContains])
  | cons p t ih =>
    by_cases hp : p.1 = u
    · simp [cacheLookup, hp]
    · have h' : cacheContains t u = true := by simpa [cacheContains, hp] using h
      have ht := ih h'
      simpa [cacheLookup, hp] using ht

theorem findRow_map_update (s : List UserRow) (u : String) (r : Int) :
    findRow (s.map (fun row =>
        if row.user_id = u then { row with last_record_id := some r } else row)) u
      = (findRow s u).map (fun row => { row with last_record_id := some r }) := by
  induction s with
  | nil => rfl
  | cons row t ih =>
    by_cases hr : row.user_id = u
    · simp [findRow, hr]
    · simp [findRow, hr] at ih ⊢
      exact ih

theorem storeContains_of_findRow (s : List UserRow) (u : String) (row : UserRow)
    (h : findRow s u = some row) : storeContains s u = true := by
  induction s with
  | nil => exact Option.noConfusion h
  | cons r t ih =>
    by_cases hr : r.user_id = u
    · simp [storeContains, hr]
    · rw [findRow, List.find?_cons_of_neg _ (by simpa using hr)] at h
      have ht : storeContains t u = true := ih h
      simpa [storeContains, hr] using ht

theorem rowsFor_eq_nil (s : List UserRow) (u : String)
    (h : storeContains s u = false) : rowsFor s u = [] := by
  induction s with
  | nil => rfl
  | cons row t ih =>
    simp only [storeContains, List.any_cons, Bool.or_eq_false_iff] at h
    simp only [rowsFor, List.filter_cons, h.1]
    exact ih h.2

theorem storeIds_map_update (s : List UserRow) (u : String) (r : Int) :
    (s.map (fun row =>
        if row.user_id = u then { row with last_record_id := some r } else row)).map
          UserRow.user_id
      = s.map UserRow.user_id := by
  induction s with
  | nil => rfl
  | cons row t ih =>
    by_cases hr : row.user_id = u
    · simp only [List.map_cons, if_pos hr, ih]
    · simp only [List.map_cons, if_neg hr, ih]

theorem cacheContains_eq_isSome (c : List (String × CacheEntry)) (u : String) :
    cacheContains c u = (cacheLookup c u).isSome := by
  induction c with
  | nil => rfl
  | cons p t ih =>
    by_cases hp : p.1 = u
    · simp [cacheContains, cacheLookup, hp]
    · simpa [cacheContains, cacheLookup, hp] using ih

theorem ensureFresh_store (σ : BotState) : (ensureFresh σ).store = σ.store := by
  unfold ensureFresh
  by_cases h : σ.cache.isEmpty
  · rw [if_pos h]
  · rw [if_neg h]

/-! The claims. -/

/-- C1: `update_last_record_id` updates the cache entry's `last_record_id`
synchronously with the Store write in the same operation: afterwards a cache
reader (`get_last_record_id`) observes exactly the written value whenever the
entry exists (and no value at all otherwise), and the Store row for the same
key — when present — carries that same value, so no observed cache value is
ever older than the last successful Store write for that key. -/
theorem c1_write_through (σ : BotState) (u : String) (r : Int) :
    get_last_record_id (update_last_record_id σ u r) u
      = (if cacheContains σ.cache u then some r else none) ∧
    findRow (update_last_record_id σ u r).store u
      = (findRow σ.store u).map (fun row => { row with last_record_id := some r }) := by
  refine ⟨?_, findRow_map_update σ.store u r⟩
  by_cases hc : cacheContains σ.cache u = true
  · rw [if_pos hc]
    have hs : (cacheLookup σ.cache u).isSome := by
      rw [← cacheContains_eq_isSome]; exact hc
    obtain ⟨e, he⟩ := Option.isSome_iff_exists.mp hs
    simp only [get_last_record_id, update_last_record_id, if_pos hc]
    rw [cacheLookup_map_update σ.cache u
      (fun e => { e with last_record_id := some r }), he]
    rfl
  · have hc' : cacheContains σ.cache u = false := by simpa using hc
    rw [if_neg hc]
    simp only [get_last_record_id, update_last_record_id, if_neg hc]
    rw [cacheLookup_eq_none _ _ hc']
    rfl

/-- C3: a postback whose `user_id` is absent from the cache synthesizes no
new user: the cache mapping is left entirely unchanged and the set of Store
row ids is unchanged (`UPDATE ... WHERE user_id = ?` creates no row), for any
payload. -/
theorem c3_unknown_postback_no_user (σ : BotState) (u data : String)
    (h : cacheLookup σ.cache u = none) :
    (handle_postback3 u data σ).1.cache = σ.cache ∧
    (handle_postback3 u data σ).1.store.map UserRow.user_id
      = σ.store.map UserRow.user_id := by
  have hc : cacheContains σ.cache u = false := by
    rw [cacheContains_eq_isSome, h]; rfl
  simp only [handle_postback3]
  cases hm : postbackSearch (pyLower data).data with
  | none => exact ⟨rfl, rfl⟩
  | some fr =>
    refine ⟨?_, ?_⟩
    · simp [update_last_record_id, hc]
    · simpa [update_last_record_id] using storeIds_map_update σ.store u (Int.ofNat fr.2)

/-- Witness for C3 at a concrete input: a postback for `u2`, never seen in the
cache, against a store holding only `u1`. -/
theorem c3_unknown_postback_no_user_witness :
    (handle_postback3 "u2" "Service Feedback: 4  ( id : 123"
        ⟨[⟨"u1", "Alice", some 5⟩], [("u1", ⟨"Alice", some 5⟩)]⟩).1.cache
      = [("u1", ⟨"Alice", some 5⟩)] ∧
    (handle_postback3 "u2" "Service Feedback: 4  ( id : 123"
        ⟨[⟨"u1", "Alice", some 5⟩], [("u1", ⟨"Alice", some 5⟩)]⟩).1.store.map
          UserRow.user_id
      = ["u1"] :=
  c3_unknown_postback_no_user
    ⟨[⟨"u1", "Alice", some 5⟩], [("u1", ⟨"Alice", some 5⟩)]⟩ "u2"
    "Service Feedback: 4  ( id : 123" (by decide)

/-- C5: `add_user` is idempotent on the Store: a second call for the same
`user_id` leaves the Store untouched (and in particular, starting from a store
without the id, two calls leave exactly one row, carrying the first call's
display name and a NULL `last_record_id`; the second display name is ignored).
The operation is total, so the duplicate call raises no error. -/
theorem c5_add_user_idempotent (σ : BotState) (u d1 d2 : String)
    (h : storeContains σ.store u = false) :
    (add_user (add_user σ u d1) u d2).store = (add_user σ u d1).store ∧
    rowsFor (add_user (add_user σ u d1) u d2).store u = [⟨u, d1, none⟩] := by
  have hne : storeContains σ.store u ≠ true := by rw [h]; simp
  have h1 : (add_user σ u d1).store = σ.store ++ [⟨u, d1, none⟩] := by
    show (if storeContains σ.store u = true then σ.store
        else σ.store ++ [⟨u, d1, none⟩]) = σ.store ++ [⟨u, d1, none⟩]
    rw [if_neg hne]
  have h2 : storeContains (add_user σ u d1).store u = true := by
    rw [h1]
    simp [storeContains]
  have h3 : (add_user (add_user σ u d1) u d2).store = (add_user σ u d1).store := by
    show (if storeContains (add_user σ u d1).store u = true then (add_user σ u d1).store
        else (add_user σ u d1).store ++ [⟨u, d2, none⟩]) = (add_user σ u d1).store
    rw [if_pos h2]
  refine ⟨h3, ?_⟩
  rw [h3, h1]
  simp only [rowsFor, List.filter_append]
  rw [← rowsFor, rowsFor_eq_nil _ _ h]
  simp

/-- Witness for C5 at a concrete input: `u1` created as `Alice`, then a second
call passing a different name. -/
theorem c5_add_user_idempotent_witness :
    (add_user (add_user ⟨[], []⟩ "u1" "Alice") "u1" "Alina").store
      = (add_user ⟨[], []⟩ "u1" "Alice").store ∧
    rowsFor (add_user (add_user ⟨[], []⟩ "u1" "Alice") "u1" "Alina").store "u1"
      = [⟨"u1", "Alice", none⟩] :=
  c5_add_user_idempotent ⟨[], []⟩ "u1" "Alice" "Alina" (by decide)

/-- C10 (implicit): invoking `add_user` for a `user_id` already present in
cache and store overwrites the cache entry with the new display name and an
absent `last_record_id`, while the Store is left completely unchanged — so a
duplicate bootstrap can leave the cache's `last_record_id` absent while the
Store row keeps its previously written display name and a non-absent
`last_record_id`. -/
theorem c10_duplicate_bootstrap (σ : BotState) (u d : String) (e : CacheEntry)
    (row : UserRow) (hc : cacheLookup σ.cache u = some e)
    (hs : findRow σ.store u = some row) :
    cacheLookup (add_user σ u d).cache u = some ⟨d, none⟩ ∧
    get_last_record_id (add_user σ u d) u = none ∧
    (add_user σ u d).store = σ.store := by
  have hcc := cacheContains_of_lookup _ _ _ hc
  have hsc := storeContains_of_findRow _ _ _ hs
  have hl : cacheLookup (add_user σ u d).cache u = some ⟨d, none⟩ := by
    simp only [add_user, cacheInsert, if_pos hcc]
    exact cacheLookup_map_replace _ _ _ hcc
  refine ⟨hl, ?_, by simp only [add_user, if_pos hsc]⟩
  simp only [get_last_record_id, hl]
  rfl

/-- Witness for C10 at a concrete input: `u1` is cached with an empty display
name (which the handler treats as unknown) and last record 5; after the
duplicate `add_user` the cache shows no `last_record_id` while the Store still
holds `Alice` and 5. -/
theorem c10_duplicate_bootstrap_witness :
    cacheLookup (add_user ⟨[⟨"u1", "Alice", some 5⟩], [("u1", ⟨"", some 5⟩)]⟩
        "u1" "Alicia").cache "u1" = some ⟨"Alicia", none⟩ ∧
    get_last_record_id (add_user ⟨[⟨"u1", "Alice", some 5⟩], [("u1", ⟨"", some 5⟩)]⟩
        "u1" "Alicia") "u1" = none ∧
    (add_user ⟨[⟨"u1", "Alice", some 5⟩], [("u1", ⟨"", some 5⟩)]⟩ "u1" "Alicia").store
      = [⟨"u1", "Alice", some 5⟩] :=
  c10_duplicate_bootstrap ⟨[⟨"u1", "Alice", some 5⟩], [("u1", ⟨"", some 5⟩)]⟩
    "u1" "Alicia" ⟨"", some 5⟩ ⟨"u1", "Alice", some 5⟩ (by decide) (by decide)

/-- C4: the first text message from a never-seen user (absent from store and
cache, hence a cache miss even after the ensured-fresh reload) creates exactly
one Store row with that id, the fetched display name and no `last_record_id`,
makes exactly one forward call with feedback 0, record id 0, empty text and
empty list type, and sends no reply — whatever the message text. -/
theorem c4_first_contact (σ : BotState) (p u m : String)
    (hs : storeContains σ.store u = false) (hc : cacheContains σ.cache u = false) :
    rowsFor (handle_message3 p u m σ).1.store u = [⟨u, p, none⟩] ∧
    (handle_message3 p u m σ).2.1 = [⟨u, some p, 0, some 0, "", ""⟩] ∧
    (handle_message3 p u m σ).2.2 = none := by
  have hlook : get_display_name (ensureFresh σ) u = none := by
    unfold ensureFresh get_display_name
    by_cases he : σ.cache.isEmpty
    · rw [if_pos he]
      show (cacheLookup (load_cache_from_db σ.store) u).map _ = none
      rw [cacheLookup_load _ _ hs]
      rfl
    · rw [if_neg he]
      show (cacheLookup σ.cache u).map _ = none
      rw [cacheLookup_eq_none _ _ hc]
      rfl
  have hres : handle_message3 p u m σ
      = (add_user (ensureFresh σ) u p, [⟨u, some p, 0, some 0, "", ""⟩], none) := by
    simp only [handle_message3, hlook]
    rfl
  rw [hres]
  refine ⟨?_, rfl, rfl⟩
  have hstore : (add_user (ensureFresh σ) u p).store = σ.store ++ [⟨u, p, none⟩] := by
    show (if storeContains (ensureFresh σ).store u = true then (ensureFresh σ).store
        else (ensureFresh σ).store ++ [⟨u, p, none⟩]) = σ.store ++ [⟨u, p, none⟩]
    rw [ensureFresh_store, if_neg (by rw [hs]; simp)]
  rw [hstore]
  simp only [rowsFor, List.filter_append]
  rw [← rowsFor, rowsFor_eq_nil _ _ hs]
  simp [rowsFor]

/-- Witness for C4 at a concrete input: empty store and cache, first message
from `u1` whose platform profile name is `Alice`. -/
theorem c4_first_contact_witness :
    rowsFor (handle_message3 "Alice" "u1" "hi" ⟨[], []⟩).1.store "u1"
      = [⟨"u1", "Alice", none⟩] ∧
    (handle_message3 "Alice" "u1" "hi" ⟨[], []⟩).2.1
      = [⟨"u1", some "Alice", 0, some 0, "", ""⟩] ∧
    (handle_message3 "Alice" "u1" "hi" ⟨[], []⟩).2.2 = none :=
  c4_first_contact ⟨[], []⟩ "Alice" "u1" "hi" (by decide) (by decide)

/-- C2 is false as stated: the postback handler never reloads an empty cache.
With an empty cache but a store holding `u1` (`Alice`, last record 5), a
postback for `u1` reads a `None` display name instead of the prior state and
returns with the cache mapping still empty. -/
theorem c2_counterexample :
    (handle_postback3 "u1" "feedback: 4  ( id : 9"
        ⟨[⟨"u1", "Alice", some 5⟩], []⟩).1.cache = [] ∧
    (handle_postback3 "u1" "feedback: 4  ( id : 9"
        ⟨[⟨"u1", "Alice", some 5⟩], []⟩).2.1
      = [⟨"u1", none, 4, some 9, "-", "action"⟩] := by
  exact ⟨rfl, rfl⟩

/-- C2 (amended): only the text-message handler re-checks cache emptiness
before its reads — on an empty cache `handle_message` behaves exactly as it
would on the cache reloaded from the Store, while `handle_postback` performs
no reload and leaves an empty cache mapping empty. -/
theorem c2_amended_reload (σ : BotState) (p u m v d : String)
    (h : σ.cache = []) :
    handle_message3 p u m σ
      = handle_message3 p u m ⟨σ.store, load_cache_from_db σ.store⟩ ∧
    (handle_postback3 v d σ).1.cache = [] := by
  have hE : ensureFresh σ = ⟨σ.store, load_cache_from_db σ.store⟩ := by
    unfold ensureFresh
    rw [if_pos (by rw [h]; rfl)]
  have hE2 : ensureFresh ⟨σ.store, load_cache_from_db σ.store⟩
      = ⟨σ.store, load_cache_from_db σ.store⟩ := by
    unfold ensureFresh
    by_cases hl : (load_cache_from_db σ.store).isEmpty = true
    · rw [if_pos hl]
    · rw [if_neg hl]
  constructor
  · simp only [handle_message3, hE, hE2]
  · have hc : cacheContains σ.cache v = false := by rw [h]; rfl
    simp only [handle_postback3]
    cases hm : postbackSearch (pyLower d).data with
    | none => exact h
    | some fr => simp [update_last_record_id, hc, h]

/-- Witness for C2 (amended) at a concrete input: empty cache over a store
holding `u1`. -/
theorem c2_amended_reload_witness :
    handle_message3 "Bob" "u1" "hello" ⟨[⟨"u1", "Alice", some 5⟩], []⟩
      = handle_message3 "Bob" "u1" "hello"
          ⟨[⟨"u1", "Alice", some 5⟩],
           load_cache_from_db [⟨"u1", "Alice", some 5⟩]⟩ ∧
    (handle_postback3 "u1" "feedback: 4  ( id : 9"
        ⟨[⟨"u1", "Alice", some 5⟩], []⟩).1.cache = [] :=
  c2_amended_reload ⟨[⟨"u1", "Alice", some 5⟩], []⟩ "Bob" "u1" "hello"
    "u1" "feedback: 4  ( id : 9" rfl

/-- C6: for a known user, the postback payload
"Service Feedback: 4  ( id : 123" (lower-cased by the handler) matches the
parse pattern with list type `service`, feedback 4 and record id 123: one
forward call with text "-", the thanks reply embedding the score out of 5,
and the user's cached `last_record_id` updated to 123. -/
theorem c6_postback_parse (σ : BotState) (u : String) (e : CacheEntry)
    (h : cacheLookup σ.cache u = some e) :
    (handle_postback3 u "Service Feedback: 4  ( id : 123" σ).2.1
      = [⟨u, some e.display_name, 4, some 123, "-", "service"⟩] ∧
    (handle_postback3 u "Service Feedback: 4  ( id : 123" σ).2.2
      = some "Thanks for your feedback: 4/5!" ∧
    get_last_record_id (handle_postback3 u "Service Feedback: 4  ( id : 123" σ).1 u
      = some 123 := by
  have hcc := cacheContains_of_lookup _ _ _ h
  have hm : postbackSearch (pyLower "Service Feedback: 4  ( id : 123").data
      = some (4, 123) := by decide
  have hsvc : strContains (pyLower "Service Feedback: 4  ( id : 123")
      "service feedback:" = true := by decide
  have hres : handle_postback3 u "Service Feedback: 4  ( id : 123" σ
      = (update_last_record_id σ u 123,
         [⟨u, get_display_name σ u, 4, some 123, "-", "service"⟩],
         some "Thanks for your feedback: 4/5!") := by
    simp only [handle_postback3, hm, hsvc, if_true]
    rfl
  rw [hres]
  refine ⟨by simp [get_display_name, h], rfl, ?_⟩
  simp only [get_last_record_id, update_last_record_id, if_pos hcc]
  rw [cacheLookup_map_update σ.cache u
    (fun e => { e with last_record_id := some (123 : Int) }), h]
  rfl

/-- Witness for C6 at a concrete input: known user `u1` cached as `Alice`
with last record 5. -/
theorem c6_postback_parse_witness :
    (handle_postback3 "u1" "Service Feedback: 4  ( id : 123"
        ⟨[⟨"u1", "Alice", some 5⟩], [("u1", ⟨"Alice", some 5⟩)]⟩).2.1
      = [⟨"u1", some "Alice", 4, some 123, "-", "service"⟩] ∧
    (handle_postback3 "u1" "Service Feedback: 4  ( id : 123"
        ⟨[⟨"u1", "Alice", some 5⟩], [("u1", ⟨"Alice", some 5⟩)]⟩).2.2
      = some "Thanks for your feedback: 4/5!" ∧
    get_last_record_id (handle_postback3 "u1" "Service Feedback: 4  ( id : 123"
        ⟨[⟨"u1", "Alice", some 5⟩], [("u1", ⟨"Alice", some 5⟩)]⟩).1 "u1"
      = some 123 :=
  c6_postback_parse ⟨[⟨"u1", "Alice", some 5⟩], [("u1", ⟨"Alice", some 5⟩)]⟩
    "u1" ⟨"Alice", some 5⟩ (by decide)

/-- C7: the text message "Service Feedback : great service" from a known user
whose cached `last_record_id` is 123 yields exactly one forward call with
feedback 0, record id 123, text "great service" (everything after the first
colon) and list type `service`, the thanks reply, and no state change. -/
theorem c7_text_feedback (σ : BotState) (p u dn : String)
    (h : cacheLookup σ.cache u = some ⟨dn, some 123⟩) (hdn : dn ≠ "") :
    handle_message3 p u "Service Feedback : great service" σ
      = (σ, [⟨u, some dn, 0, some 123, "great service", "service"⟩],
         some "Thanks for your feedback!") := by
  have hne := cache_ne_nil_of_lookup _ _ _ h
  have hE : ensureFresh σ = σ := by
    unfold ensureFresh
    rw [if_neg (by rw [hne]; simp)]
  have hdn' : get_display_name σ u = some dn := by simp [get_display_name, h]
  have hlast : get_last_record_id σ u = some 123 := by simp [get_last_record_id, h]
  have hfalsy : displayFalsy (some dn) = false := by
    simp [displayFalsy, hdn]
  have hhello : pyLower "Service Feedback : great service" ≠ "hello" := by decide
  have hscan : strContains "Service Feedback : great service"
      "Service Feedback :" = true := by decide
  have hcap : colonCapture "Service Feedback : great service"
      = some "great service" := by decide
  simp only [handle_message3, hE, hdn', Option.getD_some, hfalsy,
    Bool.false_eq_true, if_false, if_neg hhello, hscan, if_true,
    messageFeedback, hcap, hlast]

/-- Witness for C7 at a concrete input: `u1` cached as `Alice` with last
record 123. -/
theorem c7_text_feedback_witness :
    handle_message3 "Bob" "u1" "Service Feedback : great service"
        ⟨[⟨"u1", "Alice", some 123⟩], [("u1", ⟨"Alice", some 123⟩)]⟩
      = (⟨[⟨"u1", "Alice", some 123⟩], [("u1", ⟨"Alice", some 123⟩)]⟩,
         [⟨"u1", some "Alice", 0, some 123, "great service", "service"⟩],
         some "Thanks for your feedback!") :=
  c7_text_feedback ⟨[⟨"u1", "Alice", some 123⟩], [("u1", ⟨"Alice", some 123⟩)]⟩
    "Bob" "u1" "Alice" (by decide) (by decide)

/-- C8: a text message equal to "hello" in any letter case from a known user
replies with a greeting containing the stored display name, leaves cache and
store completely unchanged, and makes no forward call. -/
theorem c8_hello_frame (σ : BotState) (p u msg : String) (e : CacheEntry)
    (h : cacheLookup σ.cache u = some e) (hdn : e.display_name ≠ "")
    (hm : pyLower msg = "hello") :
    handle_message3 p u msg σ = (σ, [], some ("Hello " ++ e.display_name ++ "!")) := by
  have hne := cache_ne_nil_of_lookup _ _ _ h
  have hE : ensureFresh σ = σ := by
    unfold ensureFresh
    rw [if_neg (by rw [hne]; simp)]
  have hdn' : get_display_name σ u = some e.display_name := by
    simp [get_display_name, h]
  have hfalsy : displayFalsy (some e.display_name) = false := by
    simp [displayFalsy, hdn]
  simp only [handle_message3, hE, hdn', Option.getD_some, hfalsy,
    Bool.false_eq_true, if_false, hm, if_pos rfl, if_true]

/-- Witness for C8 at a concrete input: `HeLLo` from `u1`, cached as `Alice`. -/
theorem c8_hello_frame_witness :
    handle_message3 "Bob" "u1" "HeLLo"
        ⟨[⟨"u1", "Alice", some 5⟩], [("u1", ⟨"Alice", some 5⟩)]⟩
      = (⟨[⟨"u1", "Alice", some 5⟩], [("u1", ⟨"Alice", some 5⟩)]⟩,
         [], some ("Hello " ++ "Alice" ++ "!")) :=
  c8_hello_frame ⟨[⟨"u1", "Alice", some 5⟩], [("u1", ⟨"Alice", some 5⟩)]⟩
    "Bob" "u1" "HeLLo" ⟨"Alice", some 5⟩ (by decide) (by decide) (by decide)

/-- C9 is false as stated: on a signature failure the two webhook endpoints do
not produce the same outcome — line_bot7.py answers 400 Bad Request while
line_bot3.py lets the SDK exception escape, which Flask reports as a server
error. -/
theorem c9_counterexample : webhook3 false ≠ webhook7 false := by decide

/-- C9 (amended): the two implementations are behaviourally equivalent in
their handlers — for every inbound event the embedded `handle_message` and
`handle_postback` of the two files produce identical successor states,
forward calls and replies — and the webhook endpoints agree on requests with
valid signatures; they differ only in the outcome on signature failure. -/
theorem c9_amended_equivalence :
    (∀ p u m σ, handle_message3 p u m σ = handle_message7 p u m σ) ∧
    (∀ u d σ, handle_postback3 u d σ = handle_postback7 u d σ) ∧
    webhook3 true = webhook7 true :=
  ⟨fun _ _ _ _ => rfl, fun _ _ _ => rfl, rfl⟩

end LineService
